import Mathlib

/-!
Verification of the MCE cluster configuration generator (the service stack:
config/constants.py, services/config_builder.py, services/converters.py,
services/validators.py, services/cluster_service.py, defaults/defaults_manager.py,
generators/cluster_builder.py, models/input.py, models/cluster.py, models/requests.py).

The Python code is embedded shallowly: pure string assembly becomes pure Lean
functions, the mutable builder becomes explicit state passing, and Python
exceptions (ValueError, TypeError, AttributeError, FileNotFoundError, pydantic
ValidationError, fastapi HTTPException) become an explicit error type returned
through Except.  The on-disk registry of per-version image content sources is
abstracted as a lookup function passed in as a parameter.
-/

set_option maxRecDepth 4000
set_option linter.unusedVariables false

/-- Python exception values raised by the embedded code.  ValueError raised for
an unsupported OpenShift version is modelled structurally as unsupportedVersion
carrying the version and the supported list (defaults_manager.py lines 79-83);
FileNotFoundError for a missing per-version data file is modelled as
missingVersionData (lines 87-90); pydantic field-constraint failures are
validationError; fastapi HTTPException carries a status code and a detail
string. -/
inductive PyError where
  | valueError (msg : String)
  | typeError (msg : String)
  | attributeError (msg : String)
  | unsupportedVersion (version : String) (supported : List String)
  | missingVersionData (version : String)
  | validationError (msg : String)
  | httpException (status : Nat) (detail : String)
deriving DecidableEq

/-- Python str.strip with no argument: remove leading and trailing whitespace
characters.  Embedded over the character list so that it evaluates inside the
kernel. -/
def py_strip (s : String) : String :=
  ⟨((s.data.dropWhile Char.isWhitespace).reverse.dropWhile Char.isWhitespace).reverse⟩

/-- Python str.strip applied to each custom config, keeping only entries that
are non-empty after stripping (defaults_manager.py lines 176-179,
config_builder.py lines 100-103, models/input.py lines 113-117). -/
def strip_custom_configs (custom_configs : List String) : List String :=
  (custom_configs.map py_strip).filter (fun c => c ≠ "")

namespace Vendor

/-- Vendor.values from config/constants.py lines 21-46: the five supported
hardware vendor identifiers, in enum declaration order. -/
def values : List String :=
  ["cisco", "dell", "dell-data", "h100-gpu", "h200-gpu"]

end Vendor

namespace ConfigNames

/-- ConfigNames.WORKERS_CHRONY (constants.py line 78). -/
def WORKERS_CHRONY : String := "workers-chrony-configuration"

/-- ConfigNames.KUBELET_CONFIG_250 (constants.py line 79). -/
def KUBELET_CONFIG_250 : String := "worker-kubeletconfig"

/-- ConfigNames.KUBELET_CONFIG_500 (constants.py line 80). -/
def KUBELET_CONFIG_500 : String := "worker-kubeletconfig-500"

/-- ConfigNames.VAR_LIB_CONTAINERS (constants.py line 83). -/
def VAR_LIB_CONTAINERS : String := "98-var-lib-containers"

/-- ConfigNames.RINGSIZE (constants.py line 84). -/
def RINGSIZE : String := "ringsize"

/-- ConfigNames.get_nm_conf_name (constants.py lines 86-89): the network
manager config name for a cluster and vendor. -/
def get_nm_conf_name (cluster_name vendor : String) : String :=
  "nm-conf-" ++ cluster_name ++ "-" ++ vendor

/-- ConfigNames.get_kubelet_config_name (constants.py lines 91-96): selects the
high-density kubelet config name when max_pods equals MaxPods.HIGH_DENSITY
(500), the standard name otherwise. -/
def get_kubelet_config_name (max_pods : Nat) : String :=
  if max_pods = 500 then KUBELET_CONFIG_500 else KUBELET_CONFIG_250

end ConfigNames

namespace ConfigListBuilder

/-- ConfigListBuilder._should_include_var_lib (config_builder.py lines 31-42):
var-lib-containers is required when the user asked for it or when max_pods is
the high-density value 500. -/
def should_include_var_lib (include_var_lib : Bool) (max_pods : Nat) : Bool :=
  include_var_lib || max_pods = 500

/-- ConfigListBuilder._build_nm_conf_names (config_builder.py lines 44-55). -/
def build_nm_conf_names (cluster_name : String) (vendors : List String) : List String :=
  vendors.map (ConfigNames.get_nm_conf_name cluster_name)

/-- ConfigListBuilder._build_base_configs (config_builder.py lines 57-69):
chrony followed by the max_pods-selected kubelet config. -/
def build_base_configs (max_pods : Nat) : List String :=
  [ConfigNames.WORKERS_CHRONY, ConfigNames.get_kubelet_config_name max_pods]

/-- ConfigListBuilder._add_optional_configs (config_builder.py lines 71-90)
appends to the list in place; embedded as the list of appended entries. -/
def optional_configs_suffix (include_var_lib : Bool) (max_pods : Nat)
    (include_ringsize : Bool) : List String :=
  (if should_include_var_lib include_var_lib max_pods
     then [ConfigNames.VAR_LIB_CONTAINERS] else [])
  ++ (if include_ringsize then [ConfigNames.RINGSIZE] else [])

/-- ConfigListBuilder.build_for_nodepool (config_builder.py lines 105-146):
nm-conf for the vendor, then base configs, then optional configs, then the
stripped non-empty custom configs. -/
def build_for_nodepool (cluster_name vendor : String) (max_pods : Nat)
    (include_var_lib_containers include_ringsize : Bool)
    (custom_configs : List String) : List String :=
  [ConfigNames.get_nm_conf_name cluster_name vendor]
  ++ build_base_configs max_pods
  ++ optional_configs_suffix include_var_lib_containers max_pods include_ringsize
  ++ strip_custom_configs custom_configs

/-- ConfigListBuilder.build_mc_files (config_builder.py lines 148-189): one
nm-conf per vendor in vendor order, then base configs, then optional configs,
then the stripped non-empty custom configs. -/
def build_mc_files (cluster_name : String) (vendors : List String) (max_pods : Nat)
    (include_var_lib_containers include_ringsize : Bool)
    (custom_configs : List String) : List String :=
  build_nm_conf_names cluster_name vendors
  ++ build_base_configs max_pods
  ++ optional_configs_suffix include_var_lib_containers max_pods include_ringsize
  ++ strip_custom_configs custom_configs

end ConfigListBuilder

namespace DefaultsManager

/-- DefaultsManager.SUPPORTED_VERSIONS (defaults_manager.py line 24). -/
def SUPPORTED_VERSIONS : List String := ["4.15", "4.16"]

/-- DefaultsManager.SUPPORTED_VENDORS (defaults_manager.py lines 27-33). -/
def SUPPORTED_VENDORS : List String :=
  ["cisco", "dell", "dell-data", "h100-gpu", "h200-gpu"]

/-- DefaultsManager.DEFAULT_CONFIGS (defaults_manager.py lines 36-39): the
configs always included, with the kubelet entry a fixed name that does not
depend on max_pods. -/
def DEFAULT_CONFIGS : List String :=
  ["workers-chrony-configuration", "worker-kubeletconfig"]

/-- DefaultsManager.OPTIONAL_CONFIGS entry var_lib_containers
(defaults_manager.py line 43). -/
def OPTIONAL_CONFIG_var_lib_containers : String := "98-var-lib-containers"

/-- DefaultsManager.OPTIONAL_CONFIGS entry ringsize (defaults_manager.py
line 44). -/
def OPTIONAL_CONFIG_ringsize : String := "ringsize"

/-- DefaultsManager.DEFAULT_DNS_DOMAIN (defaults_manager.py line 48). -/
def DEFAULT_DNS_DOMAIN : String := "example.company.com"

/-- DefaultsManager.build_config_list (defaults_manager.py lines 139-181).
Its parameters are exactly those of the source method: there is no max_pods
parameter.  The source returns a list of single-key dicts; the names are kept
directly. -/
def build_config_list (cluster_name vendor : String)
    (include_var_lib_containers include_ringsize : Bool)
    (custom_configs : List String) : List String :=
  ["nm-conf-" ++ cluster_name ++ "-" ++ vendor]
  ++ DEFAULT_CONFIGS
  ++ (if include_var_lib_containers then [OPTIONAL_CONFIG_var_lib_containers] else [])
  ++ (if include_ringsize then [OPTIONAL_CONFIG_ringsize] else [])
  ++ strip_custom_configs custom_configs

/-- DefaultsManager.build_mc_files_list (defaults_manager.py lines 183-225).
As in the source there is no max_pods parameter and the base configs are the
fixed DEFAULT_CONFIGS. -/
def build_mc_files_list (cluster_name : String) (vendors : List String)
    (include_var_lib_containers include_ringsize : Bool)
    (custom_configs : List String) : List String :=
  vendors.map (fun vendor => "nm-conf-" ++ cluster_name ++ "-" ++ vendor)
  ++ DEFAULT_CONFIGS
  ++ (if include_var_lib_containers then [OPTIONAL_CONFIG_var_lib_containers] else [])
  ++ (if include_ringsize then [OPTIONAL_CONFIG_ringsize] else [])
  ++ strip_custom_configs custom_configs

end DefaultsManager

/-- ConfigItem (models/cluster.py lines 11-13): a named machine config entry
inside a nodepool. -/
structure ConfigItem where
  name : String
deriving DecidableEq

/-- AgentLabelSelector (models/cluster.py lines 16-26); nodeLabelKey defaults
to the fixed agent-install label key. -/
structure AgentLabelSelector where
  nodeLabelKey : String
  nodeLabelValue : String
deriving DecidableEq

/-- The default value of AgentLabelSelector.nodeLabelKey (models/cluster.py
lines 18-21). -/
def AGENT_NODE_LABEL_KEY : String := "infraenvs.agent-install.openshift.io"

/-- NodePoolLabels (models/cluster.py lines 28-31): replica bounds carried as
strings, in the declared field order maxReplicas then minReplicas. -/
structure NodePoolLabels where
  maxReplicas : String
  minReplicas : String
deriving DecidableEq

/-- NodePool (models/cluster.py lines 34-40). -/
structure NodePool where
  name : String
  replicas : Int
  labels : NodePoolLabels
  agentLabelSelector : AgentLabelSelector
  config : List ConfigItem
deriving DecidableEq

/-- Pydantic validation performed when a NodePool is constructed: the replicas
field carries the constraint ge=1 (models/cluster.py line 37), so construction
fails with a validation error exactly when replicas < 1. -/
def NodePool.mk_validated (name : String) (replicas : Int) (labels : NodePoolLabels)
    (agentLabelSelector : AgentLabelSelector) (config : List ConfigItem) :
    Except PyError NodePool :=
  if replicas < 1 then
    Except.error (PyError.validationError ("replicas must be greater than or equal to 1"))
  else
    Except.ok ⟨name, replicas, labels, agentLabelSelector, config⟩

/-- DNSConfig (models/cluster.py lines 43-46). -/
structure DNSConfig where
  site : String
  zone : String
deriving DecidableEq

/-- ImageContentSource (models/cluster.py lines 49-52). -/
structure ImageContentSource where
  source : String
  mirrors : List String
deriving DecidableEq

/-- ClusterConfig (models/cluster.py lines 55-70): the complete generated
document. -/
structure ClusterConfig where
  clusterName : String
  platform : String
  hostInventory : String
  nodepool : List NodePool
  mcFiles : List String
  dns : DNSConfig
  imageContentSources : List ImageContentSource
deriving DecidableEq

/-- VendorConfig (models/input.py lines 11-39). -/
structure VendorConfig where
  vendor : String
  number_of_nodes : Int
  infra_env_name : String
deriving DecidableEq

/-- ClusterGenerationInput (models/input.py lines 42-117).  The model declares
exactly these fields: in particular it has NO max_pods field; pydantic ignores
the extra max_pods keyword that services/converters.py passes when it
constructs this model, and an attribute access input.max_pods raises
AttributeError. -/
structure ClusterGenerationInput where
  cluster_name : String
  site : String
  vendor_configs : List VendorConfig
  ocp_version : String
  dns_domain : String
  include_var_lib_containers : Bool
  include_ringsize : Bool
  custom_configs : List String
deriving DecidableEq

/-- VendorConfigRequest (models/requests.py lines 8-25). -/
structure VendorConfigRequest where
  vendor : String
  number_of_nodes : Int
  infra_env_name : String
deriving DecidableEq

/-- GenerateClusterRequest = ClusterRequestBase (models/requests.py lines
28-101): the API-level request, which does declare max_pods. -/
structure GenerateClusterRequest where
  cluster_name : String
  site : String
  vendor_configs : List VendorConfigRequest
  ocp_version : String
  dns_domain : String
  max_pods : Nat
  include_var_lib_containers : Bool
  include_ringsize : Bool
  custom_configs : List String
deriving DecidableEq

/-- The abstract filesystem of per-version image content source files: for a
version string it returns the parsed imageContentSources list of the file
defaults/image_content_sources/{version}.yaml when that file exists, none when
it does not. -/
def ImageSourcesFS : Type := String → Option (List ImageContentSource)

/-- DefaultsManager.get_image_content_sources (defaults_manager.py lines
65-97): rejects a version outside SUPPORTED_VERSIONS with a ValueError
(unsupportedVersion) listing the supported versions, then fails with
FileNotFoundError (missingVersionData) when the per-version data file is
absent, and otherwise returns the file contents. -/
def DefaultsManager.get_image_content_sources (fs : ImageSourcesFS)
    (version : String) : Except PyError (List ImageContentSource) :=
  if version ∈ DefaultsManager.SUPPORTED_VERSIONS then
    match fs version with
    | none => Except.error (PyError.missingVersionData version)
    | some sources => Except.ok sources
  else
    Except.error (PyError.unsupportedVersion version DefaultsManager.SUPPORTED_VERSIONS)

namespace ClusterBuilder

/-- The mutable fields of ClusterBuilder (generators/cluster_builder.py lines
34-42). -/
structure State where
  cluster_name : Option String
  site : Option String
  dns_domain : Option String
  max_pods : Nat
  nodepools : List NodePool
  mc_files : List String
  image_content_sources : List ImageContentSource
deriving DecidableEq

/-- ClusterBuilder._reset (cluster_builder.py lines 34-42): the initial state
the builder starts in and returns to after build. -/
def initial_state : State :=
  { cluster_name := none, site := none, dns_domain := none, max_pods := 250,
    nodepools := [], mc_files := [], image_content_sources := [] }

/-- Python truthiness of the optional cluster name: both None and the empty
string are falsy in the guards `if not self._cluster_name`. -/
def name_is_set (cluster_name : Option String) : Bool :=
  match cluster_name with
  | none => false
  | some s => s ≠ ""

/-- ClusterBuilder.set_cluster_name (cluster_builder.py lines 44-47). -/
def set_cluster_name (st : State) (name : String) : State :=
  { st with cluster_name := some name }

/-- ClusterBuilder.set_site (cluster_builder.py lines 49-52). -/
def set_site (st : State) (site : String) : State :=
  { st with site := some site }

/-- ClusterBuilder.set_dns_domain (cluster_builder.py lines 54-57). -/
def set_dns_domain (st : State) (domain : String) : State :=
  { st with dns_domain := some domain }

/-- ClusterBuilder.set_max_pods (cluster_builder.py lines 59-62). -/
def set_max_pods (st : State) (max_pods : Nat) : State :=
  { st with max_pods := max_pods }

/-- The call made by ClusterBuilder.add_nodepool at cluster_builder.py lines
78-85: it invokes DefaultsManager.build_config_list with a max_pods keyword
argument, but the method as defined at defaults_manager.py lines 139-146
declares no max_pods parameter, so Python raises TypeError at the call and the
method body never runs. -/
def build_config_list_as_called (cluster_name vendor : String) (max_pods : Nat)
    (include_var_lib_containers include_ringsize : Bool)
    (custom_configs : List String) : Except PyError (List String) :=
  Except.error
    (PyError.typeError ("build_config_list got an unexpected keyword argument max_pods"))

/-- The call made by ClusterBuilder.set_mc_files at cluster_builder.py lines
115-122: it likewise passes max_pods to DefaultsManager.build_mc_files_list
(defaults_manager.py lines 183-190), which declares no such parameter, so
Python raises TypeError at the call. -/
def build_mc_files_list_as_called (cluster_name : String) (vendors : List String)
    (max_pods : Nat) (include_var_lib_containers include_ringsize : Bool)
    (custom_configs : List String) : Except PyError (List String) :=
  Except.error
    (PyError.typeError ("build_mc_files_list got an unexpected keyword argument max_pods"))

/-- The NodePoolLabels value constructed at cluster_builder.py lines 90-93:
maxReplicas is str(replicas) and minReplicas is str(max(1, replicas - 1)). -/
def labels_of_replicas (replicas : Int) : NodePoolLabels :=
  { maxReplicas := toString replicas, minReplicas := toString (max 1 (replicas - 1)) }

/-- ClusterBuilder.add_nodepool (cluster_builder.py lines 64-102): guard that
the cluster name is set, build the config list for the nodepool (the call that
raises TypeError), construct the pydantic-validated NodePool (lines 87-98),
and append it. -/
def add_nodepool (st : State) (vendor : String) (replicas : Int)
    (infra_env_name : String) (include_var_lib_containers include_ringsize : Bool)
    (custom_configs : List String) : Except PyError State :=
  if name_is_set st.cluster_name then do
    let cn := st.cluster_name.getD ""
    let config_items ← build_config_list_as_called cn vendor st.max_pods
      include_var_lib_containers include_ringsize custom_configs
    let nodepool ← NodePool.mk_validated (cn ++ "-" ++ vendor ++ "-nodepool") replicas
      (labels_of_replicas replicas)
      { nodeLabelKey := AGENT_NODE_LABEL_KEY, nodeLabelValue := infra_env_name }
      (config_items.map ConfigItem.mk)
    Except.ok { st with nodepools := st.nodepools ++ [nodepool] }
  else
    Except.error (PyError.valueError ("Cluster name must be set before adding nodepools"))

/-- ClusterBuilder.set_mc_files (cluster_builder.py lines 104-123): guard that
the cluster name is set, then store the result of the build_mc_files_list call
(the call that raises TypeError). -/
def set_mc_files (st : State) (vendors : List String)
    (include_var_lib_containers include_ringsize : Bool)
    (custom_configs : List String) : Except PyError State :=
  if name_is_set st.cluster_name then do
    let files ← build_mc_files_list_as_called (st.cluster_name.getD "") vendors
      st.max_pods include_var_lib_containers include_ringsize custom_configs
    Except.ok { st with mc_files := files }
  else
    Except.error (PyError.valueError ("Cluster name must be set before setting mcFiles"))

/-- ClusterBuilder.set_image_content_sources (cluster_builder.py lines
125-135). -/
def set_image_content_sources (fs : ImageSourcesFS) (st : State) (version : String) :
    Except PyError State :=
  match DefaultsManager.get_image_content_sources fs version with
  | Except.error e => Except.error e
  | Except.ok sources => Except.ok { st with image_content_sources := sources }

/-- ClusterBuilder.build (cluster_builder.py lines 137-160): validate required
fields, default the DNS domain when unset or empty (the Python `or` treats the
empty string as unset), assemble the ClusterConfig, then reset the builder to
its initial state and return the config. -/
def build (st : State) : Except PyError (ClusterConfig × State) :=
  if name_is_set st.cluster_name then
    if name_is_set st.site then
      if st.nodepools = [] then
        Except.error (PyError.valueError ("At least one nodepool is required"))
      else
        let dns_domain :=
          match st.dns_domain with
          | none => DefaultsManager.DEFAULT_DNS_DOMAIN
          | some d => if d = "" then DefaultsManager.DEFAULT_DNS_DOMAIN else d
        Except.ok
          ({ clusterName := st.cluster_name.getD ""
           , platform := "agent"
           , hostInventory := "inventory"
           , nodepool := st.nodepools
           , mcFiles := st.mc_files
           , dns := { site := st.site.getD "", zone := dns_domain }
           , imageContentSources := st.image_content_sources }, initial_state)
    else
      Except.error (PyError.valueError ("Site is required"))
  else
    Except.error (PyError.valueError ("Cluster name is required"))

end ClusterBuilder

namespace ClusterConfigGenerator

/-- The attribute access input_params.max_pods performed by
ClusterConfigGenerator.generate at cluster_builder.py line 179:
ClusterGenerationInput (models/input.py lines 42-117) declares no max_pods
field, so pydantic raises AttributeError here for every input. -/
def input_max_pods (input_params : ClusterGenerationInput) : Except PyError Nat :=
  Except.error
    (PyError.attributeError ("ClusterGenerationInput object has no attribute max_pods"))

/-- ClusterConfigGenerator.generate (cluster_builder.py lines 171-204): set the
basic cluster info, read input_params.max_pods (the step that raises
AttributeError), add one nodepool per vendor config in input order, set
mcFiles from the vendor list in input order, resolve image content sources for
the requested version, and build. -/
def generate (fs : ImageSourcesFS) (st : ClusterBuilder.State)
    (input_params : ClusterGenerationInput) :
    Except PyError (ClusterConfig × ClusterBuilder.State) := do
  let st := ClusterBuilder.set_cluster_name st input_params.cluster_name
  let st := ClusterBuilder.set_site st input_params.site
  let st := ClusterBuilder.set_dns_domain st input_params.dns_domain
  let mp ← input_max_pods input_params
  let st := ClusterBuilder.set_max_pods st mp
  let st ← input_params.vendor_configs.foldlM
    (fun s vc => ClusterBuilder.add_nodepool s vc.vendor vc.number_of_nodes
      vc.infra_env_name input_params.include_var_lib_containers
      input_params.include_ringsize input_params.custom_configs) st
  let st ← ClusterBuilder.set_mc_files st
    (input_params.vendor_configs.map VendorConfig.vendor)
    input_params.include_var_lib_containers input_params.include_ringsize
    input_params.custom_configs
  let st ← ClusterBuilder.set_image_content_sources fs st input_params.ocp_version
  ClusterBuilder.build st

end ClusterConfigGenerator

namespace RequestConverter

/-- RequestConverter._should_include_var_lib_containers (services/converters.py
lines 39-50): the effective var-lib flag is the user flag or max_pods == 500. -/
def should_include_var_lib_containers (include_var_lib : Bool) (max_pods : Nat) : Bool :=
  include_var_lib || max_pods = 500

/-- RequestConverter._convert_vendor_configs (converters.py lines 20-37). -/
def convert_vendor_configs (vendor_configs : List VendorConfigRequest) :
    List VendorConfig :=
  vendor_configs.map (fun vc => ⟨vc.vendor, vc.number_of_nodes, vc.infra_env_name⟩)

/-- RequestConverter.from_generate_request (converters.py lines 52-79).  The
max_pods keyword it passes to ClusterGenerationInput is silently dropped by
pydantic because the model declares no such field; the include_var_lib flag it
stores is the effective one; the custom_configs field validator of the model
(models/input.py lines 113-117) strips and filters the entries. -/
def from_generate_request (request : GenerateClusterRequest) : ClusterGenerationInput :=
  { cluster_name := request.cluster_name
  , site := request.site
  , vendor_configs := convert_vendor_configs request.vendor_configs
  , ocp_version := request.ocp_version
  , dns_domain := request.dns_domain
  , include_var_lib_containers :=
      should_include_var_lib_containers request.include_var_lib_containers request.max_pods
  , include_ringsize := request.include_ringsize
  , custom_configs := strip_custom_configs request.custom_configs }

end RequestConverter

namespace ClusterValidator

/-- Insertion of a string into a sorted list, used to embed the Python built-in
sorted() applied to the vendor set (services/validators.py line 36). -/
def insert_sorted (x : String) : List String → List String
  | [] => [x]
  | y :: ys => if x ≤ y then x :: y :: ys else y :: insert_sorted x ys

/-- The Python built-in sorted() on a list of strings, as insertion sort. -/
def sorted_strings (l : List String) : List String :=
  l.foldr insert_sorted []

/-- The detail string of the HTTPException raised by validate_vendors
(validators.py lines 34-37): it carries the offending vendor value and the
comma-joined sorted list of all valid vendors. -/
def invalid_vendor_detail (vendor : String) : String :=
  "Invalid vendor: " ++ vendor ++ ". Valid vendors: "
    ++ String.intercalate (", ") (sorted_strings Vendor.values)

/-- ClusterValidator.validate_vendors (validators.py lines 20-37): walk the
vendor configs in order and raise HTTPException 400 at the first one whose
vendor is outside the valid vendor set. -/
def validate_vendors : List VendorConfigRequest → Except PyError Unit
  | [] => Except.ok ()
  | vc :: rest =>
    if vc.vendor ∈ Vendor.values then validate_vendors rest
    else Except.error (PyError.httpException 400 (invalid_vendor_detail vc.vendor))

end ClusterValidator

namespace ClusterService

/-- GenerateClusterResponse (models/responses.py) restricted to the fields the
claims are about; the yaml_content text is represented by the generated
ClusterConfig itself, since the yaml.dump serialization of
ClusterConfigGenerator.generate_yaml is not the subject of any claim. -/
structure GenerateClusterResponse where
  cluster_name : String
  generated : ClusterConfig
  vendors_used : List String
  ocp_version : String
  nodepool_count : Nat
deriving DecidableEq

/-- ClusterService.generate_cluster (services/cluster_service.py lines
225-257): validate the vendors first, then convert the request to the internal
model, then run the generator, then assemble the response. -/
def generate_cluster (fs : ImageSourcesFS) (st : ClusterBuilder.State)
    (request : GenerateClusterRequest) : Except PyError GenerateClusterResponse := do
  ClusterValidator.validate_vendors request.vendor_configs
  let cluster_input := RequestConverter.from_generate_request request
  let result ← ClusterConfigGenerator.generate fs st cluster_input
  Except.ok
    { cluster_name := request.cluster_name
    , generated := result.1
    , vendors_used := request.vendor_configs.map VendorConfigRequest.vendor
    , ocp_version := request.ocp_version
    , nodepool_count := request.vendor_configs.length }

end ClusterService

/-- The empty registry filesystem: no per-version data file present. -/
def fs_empty : ImageSourcesFS := fun _ => none

/-- The example input of the spec (cluster c1 at site dc1, one dell vendor
config with 3 nodes, ocp 4.16, all optional flags at their defaults).  The
example also fixes max_pods = 250, but ClusterGenerationInput declares no
max_pods field, so that part of the example has no representation in the
model the generator actually receives. -/
def example_input_c1 : ClusterGenerationInput :=
  { cluster_name := "c1", site := "dc1"
  , vendor_configs := [{ vendor := "dell", number_of_nodes := 3, infra_env_name := "dell-env" }]
  , ocp_version := "4.16", dns_domain := "example.company.com"
  , include_var_lib_containers := false, include_ringsize := false
  , custom_configs := [] }

/-- A builder whose cluster name has been set to c1 (the state in which
ClusterConfigGenerator.generate first calls add_nodepool). -/
def named_builder_c1 : ClusterBuilder.State :=
  ClusterBuilder.set_cluster_name ClusterBuilder.initial_state ("c1")

/-- A builder whose cluster name has been set to c2. -/
def named_builder_c2 : ClusterBuilder.State :=
  ClusterBuilder.set_cluster_name ClusterBuilder.initial_state ("c2")

/-- A sample already-assembled nodepool, used to exhibit a state on which
ClusterBuilder.build succeeds. -/
def demo_nodepool : NodePool :=
  { name := "c0-dell-nodepool", replicas := 3
  , labels := { maxReplicas := "3", minReplicas := "2" }
  , agentLabelSelector := { nodeLabelKey := AGENT_NODE_LABEL_KEY, nodeLabelValue := "e0" }
  , config := [{ name := "x0" }] }

/-- A fully populated builder state on which build succeeds. -/
def demo_ready_state : ClusterBuilder.State :=
  { cluster_name := some ("c0"), site := some ("s0")
  , dns_domain := some ("example.company.com"), max_pods := 250
  , nodepools := [demo_nodepool], mc_files := ["m0"], image_content_sources := [] }

/-- The ClusterConfig that build assembles from demo_ready_state. -/
def demo_built_config : ClusterConfig :=
  { clusterName := "c0", platform := "agent", hostInventory := "inventory"
  , nodepool := [demo_nodepool], mcFiles := ["m0"]
  , dns := { site := "s0", zone := "example.company.com" }
  , imageContentSources := [] }

/-- A request carrying an unsupported vendor value acme. -/
def request_acme : GenerateClusterRequest :=
  { cluster_name := "c1", site := "dc1"
  , vendor_configs := [{ vendor := "acme", number_of_nodes := 3, infra_env_name := "env-1" }]
  , ocp_version := "4.16", dns_domain := "example.company.com", max_pods := 250
  , include_var_lib_containers := false, include_ringsize := false
  , custom_configs := [] }

lemma get_nm_conf_name_head (cn v : String) :
    (ConfigNames.get_nm_conf_name cn v).data.head? = some ('n') := rfl

lemma get_nm_conf_name_ne (cn v s : String) (h : s.data.head? ≠ some ('n')) :
    ConfigNames.get_nm_conf_name cn v ≠ s :=
  fun he => h (he ▸ get_nm_conf_name_head cn v)

lemma get_kubelet_config_name_head (mp : Nat) :
    (ConfigNames.get_kubelet_config_name mp).data.head? = some ('w') := by
  by_cases h : mp = 500 <;> simp [ConfigNames.get_kubelet_config_name, h] <;> rfl

lemma count_nm_conf_names_zero (cn : String) (vendors : List String) (s : String)
    (h : s.data.head? ≠ some ('n')) :
    (ConfigListBuilder.build_nm_conf_names cn vendors).count s = 0 := by
  rw [List.count_eq_zero]
  intro hmem
  obtain ⟨v, hv, he⟩ := List.mem_map.mp hmem
  exact get_nm_conf_name_ne cn v s h he

lemma not_mem_nm_conf_names (cn : String) (vendors : List String) (s : String)
    (h : s.data.head? ≠ some ('n')) :
    s ∉ ConfigListBuilder.build_nm_conf_names cn vendors := by
  intro hmem
  obtain ⟨v, hv, he⟩ := List.mem_map.mp hmem
  exact get_nm_conf_name_ne cn v s h he

lemma count_base_chrony (mp : Nat) :
    (ConfigListBuilder.build_base_configs mp).count ConfigNames.WORKERS_CHRONY = 1 := by
  by_cases h : mp = 500 <;>
    simp [ConfigListBuilder.build_base_configs, ConfigNames.get_kubelet_config_name, h] <;>
    decide

lemma count_base_kubelet (mp : Nat) :
    (ConfigListBuilder.build_base_configs mp).count
      (ConfigNames.get_kubelet_config_name mp) = 1 := by
  by_cases h : mp = 500 <;>
    simp [ConfigListBuilder.build_base_configs, ConfigNames.get_kubelet_config_name, h] <;>
    decide

lemma count_base_varlib (mp : Nat) :
    (ConfigListBuilder.build_base_configs mp).count ConfigNames.VAR_LIB_CONTAINERS = 0 := by
  by_cases h : mp = 500 <;>
    simp [ConfigListBuilder.build_base_configs, ConfigNames.get_kubelet_config_name, h] <;>
    decide

lemma count_base_ringsize (mp : Nat) :
    (ConfigListBuilder.build_base_configs mp).count ConfigNames.RINGSIZE = 0 := by
  by_cases h : mp = 500 <;>
    simp [ConfigListBuilder.build_base_configs, ConfigNames.get_kubelet_config_name, h] <;>
    decide

lemma count_opt_chrony (ivl : Bool) (mp : Nat) (irs : Bool) :
    (ConfigListBuilder.optional_configs_suffix ivl mp irs).count
      ConfigNames.WORKERS_CHRONY = 0 := by
  cases hsi : ConfigListBuilder.should_include_var_lib ivl mp <;> cases irs <;>
    simp [ConfigListBuilder.optional_configs_suffix, hsi] <;> decide

lemma mem_optional_configs_suffix (ivl : Bool) (mp : Nat) (irs : Bool) (s : String)
    (h : s ∈ ConfigListBuilder.optional_configs_suffix ivl mp irs) :
    s = ConfigNames.VAR_LIB_CONTAINERS ∨ s = ConfigNames.RINGSIZE := by
  unfold ConfigListBuilder.optional_configs_suffix at h
  rcases List.mem_append.mp h with h1 | h1 <;> split at h1 <;>
    simp only [List.mem_singleton, List.not_mem_nil] at h1 <;> tauto

lemma count_opt_kubelet (ivl : Bool) (mp : Nat) (irs : Bool) :
    (ConfigListBuilder.optional_configs_suffix ivl mp irs).count
      (ConfigNames.get_kubelet_config_name mp) = 0 := by
  rw [List.count_eq_zero]
  intro hmem
  rcases mem_optional_configs_suffix ivl mp irs _ hmem with he | he
  · exact absurd (he ▸ get_kubelet_config_name_head mp) (by decide)
  · exact absurd (he ▸ get_kubelet_config_name_head mp) (by decide)

lemma count_opt_varlib_included (ivl : Bool) (mp : Nat) (irs : Bool)
    (h : ConfigListBuilder.should_include_var_lib ivl mp = true) :
    (ConfigListBuilder.optional_configs_suffix ivl mp irs).count
      ConfigNames.VAR_LIB_CONTAINERS = 1 := by
  cases irs <;> simp [ConfigListBuilder.optional_configs_suffix, h] <;> decide

lemma count_opt_ringsize_included (ivl : Bool) (mp : Nat) :
    (ConfigListBuilder.optional_configs_suffix ivl mp true).count
      ConfigNames.RINGSIZE = 1 := by
  cases hsi : ConfigListBuilder.should_include_var_lib ivl mp <;>
    simp [ConfigListBuilder.optional_configs_suffix, hsi] <;> decide

lemma varlib_mem_build_for_nodepool_500 (cn v : String) (ivl irs : Bool)
    (cc : List String) :
    ConfigNames.VAR_LIB_CONTAINERS ∈ ConfigListBuilder.build_for_nodepool cn v 500 ivl irs cc := by
  simp [ConfigListBuilder.build_for_nodepool, ConfigListBuilder.optional_configs_suffix,
    ConfigListBuilder.should_include_var_lib]

lemma varlib_mem_build_mc_files_500 (cn : String) (vendors : List String) (ivl irs : Bool)
    (cc : List String) :
    ConfigNames.VAR_LIB_CONTAINERS ∈ ConfigListBuilder.build_mc_files cn vendors 500 ivl irs cc := by
  simp [ConfigListBuilder.build_mc_files, ConfigListBuilder.optional_configs_suffix,
    ConfigListBuilder.should_include_var_lib]

lemma varlib_not_mem_build_for_nodepool_250 (cn v : String) (irs : Bool) (cc : List String)
    (hcc : ConfigNames.VAR_LIB_CONTAINERS ∉ strip_custom_configs cc) :
    ConfigNames.VAR_LIB_CONTAINERS ∉ ConfigListBuilder.build_for_nodepool cn v 250 false irs cc := by
  intro hmem
  unfold ConfigListBuilder.build_for_nodepool at hmem
  rcases List.mem_append.mp hmem with h | h
  · rcases List.mem_append.mp h with h2 | h2
    · rcases List.mem_append.mp h2 with h3 | h3
      · rw [List.mem_singleton] at h3
        exact get_nm_conf_name_ne cn v _ (by decide) h3.symm
      · exact absurd h3 (by decide)
    · unfold ConfigListBuilder.optional_configs_suffix at h2
      rw [show ConfigListBuilder.should_include_var_lib false 250 = false from rfl] at h2
      simp only [Bool.false_eq_true, if_false, List.nil_append] at h2
      split at h2
      · rw [List.mem_singleton] at h2
        exact absurd h2 (by decide)
      · exact absurd h2 (List.not_mem_nil _)
  · exact hcc h

lemma varlib_not_mem_build_mc_files_250 (cn : String) (vendors : List String) (irs : Bool)
    (cc : List String)
    (hcc : ConfigNames.VAR_LIB_CONTAINERS ∉ strip_custom_configs cc) :
    ConfigNames.VAR_LIB_CONTAINERS ∉ ConfigListBuilder.build_mc_files cn vendors 250 false irs cc := by
  intro hmem
  unfold ConfigListBuilder.build_mc_files at hmem
  rcases List.mem_append.mp hmem with h | h
  · rcases List.mem_append.mp h with h2 | h2
    · rcases List.mem_append.mp h2 with h3 | h3
      · exact not_mem_nm_conf_names cn vendors _ (by decide) h3
      · exact absurd h3 (by decide)
    · unfold ConfigListBuilder.optional_configs_suffix at h2
      rw [show ConfigListBuilder.should_include_var_lib false 250 = false from rfl] at h2
      simp only [Bool.false_eq_true, if_false, List.nil_append] at h2
      split at h2
      · rw [List.mem_singleton] at h2
        exact absurd h2 (by decide)
      · exact absurd h2 (List.not_mem_nil _)
  · exact hcc h

lemma varlib_not_mem_build_config_list (cn v : String) (irs : Bool) (cc : List String)
    (hcc : ConfigNames.VAR_LIB_CONTAINERS ∉ strip_custom_configs cc) :
    ConfigNames.VAR_LIB_CONTAINERS ∉ DefaultsManager.build_config_list cn v false irs cc := by
  intro hmem
  unfold DefaultsManager.build_config_list at hmem
  rcases List.mem_append.mp hmem with h | h
  · rcases List.mem_append.mp h with h2 | h2
    · rcases List.mem_append.mp h2 with h3 | h3
      · rcases List.mem_append.mp h3 with h4 | h4
        · rw [List.mem_singleton] at h4
          exact get_nm_conf_name_ne cn v _ (by decide) h4.symm
        · exact absurd h4 (by decide)
      · simp only [Bool.false_eq_true, if_false, List.not_mem_nil] at h3
    · split at h2 <;> simp only [List.not_mem_nil, List.mem_singleton] at h2
      exact absurd h2 (by decide)
  · exact hcc h

lemma varlib_not_mem_build_mc_files_list (cn : String) (vendors : List String) (irs : Bool)
    (cc : List String)
    (hcc : ConfigNames.VAR_LIB_CONTAINERS ∉ strip_custom_configs cc) :
    ConfigNames.VAR_LIB_CONTAINERS ∉ DefaultsManager.build_mc_files_list cn vendors false irs cc := by
  intro hmem
  unfold DefaultsManager.build_mc_files_list at hmem
  rcases List.mem_append.mp hmem with h | h
  · rcases List.mem_append.mp h with h2 | h2
    · rcases List.mem_append.mp h2 with h3 | h3
      · rcases List.mem_append.mp h3 with h4 | h4
        · obtain ⟨w, hw, he⟩ := List.mem_map.mp h4
          exact get_nm_conf_name_ne cn w _ (by decide) he
        · exact absurd h4 (by decide)
      · simp only [Bool.false_eq_true, if_false, List.not_mem_nil] at h3
    · split at h2 <;> simp only [List.not_mem_nil, List.mem_singleton] at h2
      exact absurd h2 (by decide)
  · exact hcc h

lemma validate_vendors_first_error (vcs : List VendorConfigRequest)
    (h : ∃ vc ∈ vcs, vc.vendor ∉ Vendor.values) :
    ∃ v, v ∉ Vendor.values ∧ (∃ vc ∈ vcs, vc.vendor = v)
      ∧ ClusterValidator.validate_vendors vcs
          = Except.error (PyError.httpException 400 (ClusterValidator.invalid_vendor_detail v)) := by
  induction vcs with
  | nil =>
    obtain ⟨vc, hm, hv⟩ := h
    exact absurd hm (List.not_mem_nil vc)
  | cons vc rest ih =>
    by_cases hv : vc.vendor ∈ Vendor.values
    · have hrest : ∃ w ∈ rest, w.vendor ∉ Vendor.values := by
        obtain ⟨w, hm, hw⟩ := h
        rcases List.mem_cons.mp hm with h1 | h1
        · exact absurd hv (h1 ▸ hw)
        · exact ⟨w, h1, hw⟩
      obtain ⟨u, h1, ⟨w, hm, he⟩, h3⟩ := ih hrest
      refine ⟨u, h1, ⟨w, List.mem_cons_of_mem vc hm, he⟩, ?_⟩
      simpa [ClusterValidator.validate_vendors, hv] using h3
    · exact ⟨vc.vendor, hv, ⟨vc, List.mem_cons_self vc rest, rfl⟩,
        by simp [ClusterValidator.validate_vendors, hv]⟩

/-- C1: the spec example expects generate on input (cluster c1, site dc1, one
dell vendor config with 3 nodes, ocp 4.16, max_pods 250) to return a document
with one nodepool c1-dell-nodepool, replicas 3, minReplicas 2, maxReplicas 3
and the three-element config and mcFiles lists.  On the code, generate raises
AttributeError for every builder state and every registry content, because
ClusterGenerationInput has no max_pods field (and the add_nodepool call it
would make next passes a max_pods keyword that build_config_list rejects).
The remaining conjuncts evaluate the cited DefaultsManager list builders and
the label computation at the arguments of the example, showing they would
produce exactly the names and labels the claim lists. -/
theorem claim_C1_generate_crashes_on_spec_example :
    (∀ (fs : ImageSourcesFS) (st : ClusterBuilder.State),
      ClusterConfigGenerator.generate fs st example_input_c1
        = Except.error (PyError.attributeError
            ("ClusterGenerationInput object has no attribute max_pods")))
    ∧ DefaultsManager.build_config_list ("c1") ("dell") false false []
        = [("nm-conf-c1-dell"), ("workers-chrony-configuration"), ("worker-kubeletconfig")]
    ∧ DefaultsManager.build_mc_files_list ("c1") [("dell")] false false []
        = [("nm-conf-c1-dell"), ("workers-chrony-configuration"), ("worker-kubeletconfig")]
    ∧ ClusterBuilder.labels_of_replicas 3
        = { maxReplicas := "3", minReplicas := "2" } :=
  ⟨fun fs st => rfl, by decide, by decide, by decide⟩

/-- C5: the claim says that for every valid input with N vendor configs the
generated document has exactly N nodepools in input order.  On the code no
input ever yields a document: generate raises AttributeError on the
input_params.max_pods access (cluster_builder.py line 179) for every input,
every builder state and every registry content. -/
theorem claim_C5_generate_never_returns_a_document :
    ∀ (fs : ImageSourcesFS) (st : ClusterBuilder.State)
      (input_params : ClusterGenerationInput),
      ClusterConfigGenerator.generate fs st input_params
        = Except.error (PyError.attributeError
            ("ClusterGenerationInput object has no attribute max_pods")) :=
  fun fs st input_params => rfl

/-- C7: the claim says each vendor config yields a nodepool whose labels are
minReplicas = str(max(1, replicas-1)) and maxReplicas = str(replicas), as
strings.  The label expression of the assembler (cluster_builder.py lines
90-93) does compute exactly those strings, but the assembler itself raises
TypeError on its build_config_list call before any NodePool is constructed,
so no output ever carries these labels. -/
theorem claim_C7_labels_formula_but_assembler_fails :
    ClusterBuilder.add_nodepool named_builder_c1 ("dell") 3 ("dell-env") false false []
      = Except.error (PyError.typeError
          ("build_config_list got an unexpected keyword argument max_pods"))
    ∧ ClusterBuilder.labels_of_replicas 5
        = { maxReplicas := "5", minReplicas := "4" }
    ∧ ClusterBuilder.labels_of_replicas 1
        = { maxReplicas := "1", minReplicas := "1" } :=
  ⟨rfl, by decide, by decide⟩

/-- C8: the claim says the nodepool assembler fails with InvalidReplicaCount
for replicas below 1 and succeeds for replicas at least 1.  On the code,
add_nodepool raises the same TypeError for every replica count once the
cluster name is set (it performs no replica validation of its own), so it
never succeeds and never raises a replica-specific error; the ge=1 bound lives
only on the pydantic NodePool model, whose construction the failing call never
reaches. -/
theorem claim_C8_assembler_always_raises_type_error :
    ClusterBuilder.add_nodepool named_builder_c2 ("cisco") 0 ("env-a") false false []
      = Except.error (PyError.typeError
          ("build_config_list got an unexpected keyword argument max_pods"))
    ∧ ClusterBuilder.add_nodepool named_builder_c2 ("cisco") 5 ("env-a") false false []
      = Except.error (PyError.typeError
          ("build_config_list got an unexpected keyword argument max_pods"))
    ∧ NodePool.mk_validated ("c2-cisco-nodepool") 0 (ClusterBuilder.labels_of_replicas 0)
        ⟨AGENT_NODE_LABEL_KEY, "env-a"⟩ []
      = Except.error (PyError.validationError
          ("replicas must be greater than or equal to 1"))
    ∧ (NodePool.mk_validated ("c2-cisco-nodepool") 5 (ClusterBuilder.labels_of_replicas 5)
        ⟨AGENT_NODE_LABEL_KEY, "env-a"⟩ []).isOk = true :=
  ⟨rfl, rfl, rfl, rfl⟩

/-- C9: image_content_sources lookup fails with the unsupported-version error
(naming the supported enumeration) for every version outside the static list
of SUPPORTED_VERSIONS, and fails with the missing-data error for an enumerated
version whose per-version data file is absent; in both cases the result is
exactly that error, never a silently defaulted value. -/
theorem claim_C9_version_registry_errors :
    DefaultsManager.SUPPORTED_VERSIONS = ["4.15", "4.16"]
    ∧ ∀ (fs : ImageSourcesFS) (version : String),
      (version ∉ DefaultsManager.SUPPORTED_VERSIONS →
        DefaultsManager.get_image_content_sources fs version
          = Except.error (PyError.unsupportedVersion version DefaultsManager.SUPPORTED_VERSIONS))
      ∧ (version ∈ DefaultsManager.SUPPORTED_VERSIONS → fs version = none →
        DefaultsManager.get_image_content_sources fs version
          = Except.error (PyError.missingVersionData version)) := by
  refine ⟨rfl, fun fs version => ⟨fun h => ?_, fun h hf => ?_⟩⟩
  · simp [DefaultsManager.get_image_content_sources, h]
  · simp [DefaultsManager.get_image_content_sources, h, hf]

/-- C9 witness: version 4.17 is outside the enumeration and is rejected as
unsupported; version 4.16 is enumerated, and with no data file present the
lookup reports missing data. -/
theorem claim_C9_witness :
    (("4.17") ∉ DefaultsManager.SUPPORTED_VERSIONS
      ∧ DefaultsManager.get_image_content_sources fs_empty ("4.17")
          = Except.error (PyError.unsupportedVersion ("4.17") DefaultsManager.SUPPORTED_VERSIONS))
    ∧ (("4.16") ∈ DefaultsManager.SUPPORTED_VERSIONS
      ∧ DefaultsManager.get_image_content_sources fs_empty ("4.16")
          = Except.error (PyError.missingVersionData ("4.16"))) :=
  ⟨⟨by decide, (claim_C9_version_registry_errors.2 fs_empty ("4.17")).1 (by decide)⟩,
   ⟨by decide, (claim_C9_version_registry_errors.2 fs_empty ("4.16")).2 (by decide) rfl⟩⟩

/-- C10: after every successful build the builder state is reset to the
initial empty state; add_nodepool and set_mc_files raise ValueError when
called before the cluster name is set; and the result of a generate call does
not depend on the builder state left by any previous call (on the current
code this last part holds because generate returns the same AttributeError for
every input and every prior state, so no nodepools or mcFiles of a previous
call can ever leak into a result). -/
theorem claim_C10_builder_reset_and_guards :
    (∀ (st : ClusterBuilder.State) (cfg : ClusterConfig) (st2 : ClusterBuilder.State),
       ClusterBuilder.build st = Except.ok (cfg, st2) → st2 = ClusterBuilder.initial_state)
    ∧ (∀ (st : ClusterBuilder.State) (vendor : String) (replicas : Int)
         (infra_env_name : String) (ivl irs : Bool) (cc : List String),
       ClusterBuilder.name_is_set st.cluster_name = false →
       ClusterBuilder.add_nodepool st vendor replicas infra_env_name ivl irs cc
         = Except.error (PyError.valueError
             ("Cluster name must be set before adding nodepools")))
    ∧ (∀ (st : ClusterBuilder.State) (vendors : List String) (ivl irs : Bool)
         (cc : List String),
       ClusterBuilder.name_is_set st.cluster_name = false →
       ClusterBuilder.set_mc_files st vendors ivl irs cc
         = Except.error (PyError.valueError
             ("Cluster name must be set before setting mcFiles")))
    ∧ (∀ (fs : ImageSourcesFS) (st1 st2 : ClusterBuilder.State)
         (input_params : ClusterGenerationInput),
       ClusterConfigGenerator.generate fs st1 input_params
         = ClusterConfigGenerator.generate fs st2 input_params) := by
  refine ⟨?_, ?_, ?_, fun fs st1 st2 ip => rfl⟩
  · intro st cfg st2 h
    unfold ClusterBuilder.build at h
    split at h
    · split at h
      · split at h
        · exact absurd h (by simp)
        · simp only [Except.ok.injEq, Prod.mk.injEq] at h
          exact h.2.symm
      · exact absurd h (by simp)
    · exact absurd h (by simp)
  · intro st vendor replicas infra_env_name ivl irs cc h
    simp [ClusterBuilder.add_nodepool, h]
  · intro st vendors ivl irs cc h
    simp [ClusterBuilder.set_mc_files, h]

/-- C10 witness: build applied to a concrete fully populated state succeeds
and hands back the initial state, and the two guards fire on the initial
(unnamed) builder. -/
theorem claim_C10_witness :
    ClusterBuilder.initial_state = ClusterBuilder.initial_state
    ∧ ClusterBuilder.add_nodepool ClusterBuilder.initial_state ("dell") 3 ("e0") false false []
        = Except.error (PyError.valueError
            ("Cluster name must be set before adding nodepools"))
    ∧ ClusterBuilder.set_mc_files ClusterBuilder.initial_state [("m0")] false false []
        = Except.error (PyError.valueError
            ("Cluster name must be set before setting mcFiles")) :=
  ⟨claim_C10_builder_reset_and_guards.1 demo_ready_state demo_built_config
      ClusterBuilder.initial_state rfl,
   claim_C10_builder_reset_and_guards.2.1 ClusterBuilder.initial_state ("dell") 3 ("e0")
      false false [] rfl,
   claim_C10_builder_reset_and_guards.2.2.1 ClusterBuilder.initial_state [("m0")]
      false false [] rfl⟩

/-- C4: when any vendor config carries a vendor outside the supported set,
generate_cluster fails with the HTTPException 400 raised by validate_vendors,
whose detail carries the offending vendor value and the sorted comma-joined
list of all five supported vendors; the failure is exactly the validator
error, produced before the converter or the generator run (generate_cluster
sequences validate_vendors first, and its result on such a request equals the
validator result). -/
theorem claim_C4_unsupported_vendor_rejected_first :
    ClusterValidator.sorted_strings Vendor.values
      = ["cisco", "dell", "dell-data", "h100-gpu", "h200-gpu"]
    ∧ (∀ (fs : ImageSourcesFS) (st : ClusterBuilder.State)
         (req : GenerateClusterRequest),
        (∃ vc ∈ req.vendor_configs, vc.vendor ∉ Vendor.values) →
        ∃ v, v ∉ Vendor.values ∧ (∃ vc ∈ req.vendor_configs, vc.vendor = v)
          ∧ ClusterValidator.validate_vendors req.vendor_configs
              = Except.error (PyError.httpException 400 (ClusterValidator.invalid_vendor_detail v))
          ∧ ClusterService.generate_cluster fs st req
              = Except.error (PyError.httpException 400 (ClusterValidator.invalid_vendor_detail v))) := by
  refine ⟨by simp [ClusterValidator.sorted_strings, ClusterValidator.insert_sorted,
      Vendor.values] <;> decide, fun fs st req h => ?_⟩
  obtain ⟨v, h1, h2, h3⟩ := validate_vendors_first_error req.vendor_configs h
  refine ⟨v, h1, h2, h3, ?_⟩
  simp only [ClusterService.generate_cluster, h3]
  rfl

/-- C4 witness: the request with vendor acme is rejected with status 400 and a
detail string listing acme and all five supported vendors, both through the
validator alone and through generate_cluster. -/
theorem claim_C4_witness :
    ∃ v, v ∉ Vendor.values ∧ (∃ vc ∈ request_acme.vendor_configs, vc.vendor = v)
      ∧ ClusterValidator.validate_vendors request_acme.vendor_configs
          = Except.error (PyError.httpException 400 (ClusterValidator.invalid_vendor_detail v))
      ∧ ClusterService.generate_cluster fs_empty ClusterBuilder.initial_state request_acme
          = Except.error (PyError.httpException 400 (ClusterValidator.invalid_vendor_detail v)) :=
  claim_C4_unsupported_vendor_rejected_first.2 fs_empty ClusterBuilder.initial_state
    request_acme ⟨{ vendor := "acme", number_of_nodes := 3, infra_env_name := "env-1" },
      by decide, by decide⟩

/-- C2 (amended): for max_pods = 500 the var-lib-containers name is in every
nodepool config list and in the mcFiles list built by ConfigListBuilder even
when the user flag is false, and the request converter forces the effective
flag to true (so the DefaultsManager path includes it as well); for
max_pods = 250 with the flag false it appears in none of the four list
builders PROVIDED no custom config equals the var-lib-containers name after
stripping — the proviso the counterexample forces. -/
theorem claim_C2_var_lib_forced_at_500 :
    (∀ (cn v : String) (vendors : List String) (ivl irs : Bool) (cc : List String),
        ConfigNames.VAR_LIB_CONTAINERS ∈ ConfigListBuilder.build_for_nodepool cn v 500 ivl irs cc
      ∧ ConfigNames.VAR_LIB_CONTAINERS ∈ ConfigListBuilder.build_mc_files cn vendors 500 ivl irs cc
      ∧ RequestConverter.should_include_var_lib_containers ivl 500 = true)
    ∧ (∀ (cn v : String) (vendors : List String) (irs : Bool) (cc : List String),
        ConfigNames.VAR_LIB_CONTAINERS ∉ strip_custom_configs cc →
          ConfigNames.VAR_LIB_CONTAINERS ∉ ConfigListBuilder.build_for_nodepool cn v 250 false irs cc
        ∧ ConfigNames.VAR_LIB_CONTAINERS ∉ ConfigListBuilder.build_mc_files cn vendors 250 false irs cc
        ∧ ConfigNames.VAR_LIB_CONTAINERS ∉ DefaultsManager.build_config_list cn v false irs cc
        ∧ ConfigNames.VAR_LIB_CONTAINERS ∉ DefaultsManager.build_mc_files_list cn vendors false irs cc) :=
  ⟨fun cn v vendors ivl irs cc =>
    ⟨varlib_mem_build_for_nodepool_500 cn v ivl irs cc,
     varlib_mem_build_mc_files_500 cn vendors ivl irs cc,
     by simp [RequestConverter.should_include_var_lib_containers]⟩,
   fun cn v vendors irs cc hcc =>
    ⟨varlib_not_mem_build_for_nodepool_250 cn v irs cc hcc,
     varlib_not_mem_build_mc_files_250 cn vendors irs cc hcc,
     varlib_not_mem_build_config_list cn v irs cc hcc,
     varlib_not_mem_build_mc_files_list cn vendors irs cc hcc⟩⟩

/-- C2 counterexample: with max_pods = 250 and include_var_lib_containers =
false, a custom config equal to the var-lib-containers name still puts
98-var-lib-containers into the nodepool config list and the mcFiles list of
both builder variants, refuting the claim that it then appears nowhere in the
output; the converter flag stays false, so the occurrence comes purely from
the custom configs. -/
theorem claim_C2_counterexample :
    ConfigNames.VAR_LIB_CONTAINERS
      ∈ ConfigListBuilder.build_for_nodepool ("c1") ("dell") 250 false false
          [("98-var-lib-containers")]
    ∧ ConfigNames.VAR_LIB_CONTAINERS
      ∈ ConfigListBuilder.build_mc_files ("c1") [("dell")] 250 false false
          [("98-var-lib-containers")]
    ∧ ConfigNames.VAR_LIB_CONTAINERS
      ∈ DefaultsManager.build_config_list ("c1") ("dell") false false
          [("98-var-lib-containers")]
    ∧ ConfigNames.VAR_LIB_CONTAINERS
      ∈ DefaultsManager.build_mc_files_list ("c1") [("dell")] false false
          [("98-var-lib-containers")]
    ∧ RequestConverter.should_include_var_lib_containers false 250 = false := by
  refine ⟨?_, ?_, ?_, ?_, ?_⟩ <;> decide

/-- C2 witness: at the concrete arguments cluster c1, vendor dell, max_pods
250, all flags false and no custom configs, the var-lib-containers name is
absent from all four lists. -/
theorem claim_C2_witness :
    ConfigNames.VAR_LIB_CONTAINERS ∉ ConfigListBuilder.build_for_nodepool ("c1") ("dell") 250 false false []
    ∧ ConfigNames.VAR_LIB_CONTAINERS ∉ ConfigListBuilder.build_mc_files ("c1") [("dell")] 250 false false []
    ∧ ConfigNames.VAR_LIB_CONTAINERS ∉ DefaultsManager.build_config_list ("c1") ("dell") false false []
    ∧ ConfigNames.VAR_LIB_CONTAINERS ∉ DefaultsManager.build_mc_files_list ("c1") [("dell")] false false [] :=
  claim_C2_var_lib_forced_at_500.2 ("c1") ("dell") [("dell")] false [] (by decide)

/-- C6 (amended): both mc-files builders produce exactly one nm-conf entry per
element of the vendors list, in vendor order, followed by the base configs,
then the enabled optional configs, then the stripped custom configs in input
order; and each base or enabled optional config occurs exactly once PROVIDED
no custom config equals it after stripping — the proviso the counterexample
forces (the source never deduplicates custom configs against the generated
names). -/
theorem claim_C6_mc_files_layout :
    (∀ (cn : String) (vendors : List String) (mp : Nat) (ivl irs : Bool)
       (cc : List String),
       ConfigListBuilder.build_mc_files cn vendors mp ivl irs cc
         = ConfigListBuilder.build_nm_conf_names cn vendors
           ++ ConfigListBuilder.build_base_configs mp
           ++ ConfigListBuilder.optional_configs_suffix ivl mp irs
           ++ strip_custom_configs cc)
    ∧ (∀ (cn : String) (vendors : List String) (ivl irs : Bool) (cc : List String),
       DefaultsManager.build_mc_files_list cn vendors ivl irs cc
         = ConfigListBuilder.build_nm_conf_names cn vendors
           ++ DefaultsManager.DEFAULT_CONFIGS
           ++ (if ivl then [DefaultsManager.OPTIONAL_CONFIG_var_lib_containers] else [])
           ++ (if irs then [DefaultsManager.OPTIONAL_CONFIG_ringsize] else [])
           ++ strip_custom_configs cc)
    ∧ (∀ (cn : String) (vendors : List String) (mp : Nat) (ivl irs : Bool)
         (cc : List String),
       ConfigNames.WORKERS_CHRONY ∉ strip_custom_configs cc →
       ConfigNames.get_kubelet_config_name mp ∉ strip_custom_configs cc →
       (ConfigListBuilder.build_mc_files cn vendors mp ivl irs cc).count
           ConfigNames.WORKERS_CHRONY = 1
       ∧ (ConfigListBuilder.build_mc_files cn vendors mp ivl irs cc).count
           (ConfigNames.get_kubelet_config_name mp) = 1)
    ∧ (∀ (cn : String) (vendors : List String) (mp : Nat) (ivl irs : Bool)
         (cc : List String),
       ConfigNames.VAR_LIB_CONTAINERS ∉ strip_custom_configs cc →
       ConfigListBuilder.should_include_var_lib ivl mp = true →
       (ConfigListBuilder.build_mc_files cn vendors mp ivl irs cc).count
           ConfigNames.VAR_LIB_CONTAINERS = 1)
    ∧ (∀ (cn : String) (vendors : List String) (mp : Nat) (ivl : Bool)
         (cc : List String),
       ConfigNames.RINGSIZE ∉ strip_custom_configs cc →
       (ConfigListBuilder.build_mc_files cn vendors mp ivl true cc).count
           ConfigNames.RINGSIZE = 1) := by
  refine ⟨fun cn vendors mp ivl irs cc => rfl, fun cn vendors ivl irs cc => rfl,
    ?_, ?_, ?_⟩
  · intro cn vendors mp ivl irs cc h1 h2
    constructor
    · simp [ConfigListBuilder.build_mc_files, List.count_append,
        count_nm_conf_names_zero cn vendors ConfigNames.WORKERS_CHRONY (by decide),
        count_base_chrony, count_opt_chrony, List.count_eq_zero.mpr h1]
    · have hk : (ConfigNames.get_kubelet_config_name mp).data.head? ≠ some ('n') := by
        rw [get_kubelet_config_name_head mp]; decide
      simp [ConfigListBuilder.build_mc_files, List.count_append,
        count_nm_conf_names_zero cn vendors _ hk, count_base_kubelet,
        count_opt_kubelet, List.count_eq_zero.mpr h2]
  · intro cn vendors mp ivl irs cc h1 hsi
    simp [ConfigListBuilder.build_mc_files, List.count_append,
      count_nm_conf_names_zero cn vendors ConfigNames.VAR_LIB_CONTAINERS (by decide),
      count_base_varlib, count_opt_varlib_included ivl mp irs hsi,
      List.count_eq_zero.mpr h1]
  · intro cn vendors mp ivl cc h1
    simp [ConfigListBuilder.build_mc_files, List.count_append,
      count_nm_conf_names_zero cn vendors ConfigNames.RINGSIZE (by decide),
      count_base_ringsize, count_opt_ringsize_included ivl mp,
      List.count_eq_zero.mpr h1]

/-- C6 counterexample: a custom config equal to the chrony base config makes
the base entry appear twice in the mcFiles list of both builder variants,
refuting the exactly-once part of the claim. -/
theorem claim_C6_counterexample :
    ConfigListBuilder.build_mc_files ("c1") [("dell")] 250 false false
        [("workers-chrony-configuration")]
      = [("nm-conf-c1-dell"), ("workers-chrony-configuration"),
         ("worker-kubeletconfig"), ("workers-chrony-configuration")]
    ∧ (ConfigListBuilder.build_mc_files ("c1") [("dell")] 250 false false
        [("workers-chrony-configuration")]).count ("workers-chrony-configuration") = 2
    ∧ (DefaultsManager.build_mc_files_list ("c1") [("dell")] false false
        [("workers-chrony-configuration")]).count ("workers-chrony-configuration") = 2 := by
  refine ⟨?_, ?_, ?_⟩ <;> decide

/-- C6 witness: at cluster c1, one dell vendor, max_pods 250, both optional
flags on and one custom config that collides with nothing, chrony, the
selected kubelet config, var-lib-containers and ringsize each occur exactly
once. -/
theorem claim_C6_witness :
    ((ConfigListBuilder.build_mc_files ("c1") [("dell")] 250 true true
        [(" custom-net ")]).count ConfigNames.WORKERS_CHRONY = 1
    ∧ (ConfigListBuilder.build_mc_files ("c1") [("dell")] 250 true true
        [(" custom-net ")]).count (ConfigNames.get_kubelet_config_name 250) = 1)
    ∧ (ConfigListBuilder.build_mc_files ("c1") [("dell")] 250 true true
        [(" custom-net ")]).count ConfigNames.VAR_LIB_CONTAINERS = 1
    ∧ (ConfigListBuilder.build_mc_files ("c1") [("dell")] 250 true true
        [(" custom-net ")]).count ConfigNames.RINGSIZE = 1 :=
  ⟨claim_C6_mc_files_layout.2.2.1 ("c1") [("dell")] 250 true true [(" custom-net ")]
      (by decide) (by decide),
   claim_C6_mc_files_layout.2.2.2.1 ("c1") [("dell")] 250 true true [(" custom-net ")]
      (by decide) (by decide),
   claim_C6_mc_files_layout.2.2.2.2 ("c1") [("dell")] 250 true [(" custom-net ")]
      (by decide)⟩

/-- C3: the two-way kubelet switch exists in ConfigNames.get_kubelet_config_name
and is honoured by ConfigListBuilder, but the generated output never uses it:
the generate path builds its lists through DefaultsManager, whose fixed
DEFAULT_CONFIGS always contain the standard worker-kubeletconfig name, so the
high-density name never reaches a nodepool config list or mcFiles (the flag
true below is the effective var-lib flag the converter computes for
max_pods = 500). -/
theorem claim_C3_kubelet_switch_unused_by_output :
    ConfigNames.get_kubelet_config_name 250 = ("worker-kubeletconfig")
    ∧ ConfigNames.get_kubelet_config_name 500 = ("worker-kubeletconfig-500")
    ∧ ConfigListBuilder.build_for_nodepool ("c1") ("dell") 500 false false []
        = [("nm-conf-c1-dell"), ("workers-chrony-configuration"),
           ("worker-kubeletconfig-500"), ("98-var-lib-containers")]
    ∧ DefaultsManager.build_config_list ("c1") ("dell") true false []
        = [("nm-conf-c1-dell"), ("workers-chrony-configuration"),
           ("worker-kubeletconfig"), ("98-var-lib-containers")]
    ∧ ("worker-kubeletconfig-500") ∉ DefaultsManager.build_config_list ("c1") ("dell") true false []
    ∧ ("worker-kubeletconfig-500") ∉ DefaultsManager.build_mc_files_list ("c1") [("dell")] true false [] := by
  refine ⟨?_, ?_, ?_, ?_, ?_, ?_⟩ <;> decide
